import Mathlib

/-!
Shallow embedding of the gpiod ISR wrapper (gpiod-isr.h): an edge-triggered
GPIO interrupt emulation layer over libgpiod.  Pointers are modelled as ids
(lines and handler function pointers as naturals, NULL parameters as
Option.none), the external collaborators (libgpiod reservation calls, pthread
primitives, malloc) are modelled by boolean outcome parameters, and every
externally visible call a wrapper function performs is recorded, in program
order, in a trace of actions.  The watcher thread bodies are modelled as
functions consuming a finite prefix of collaborator outcomes (one entry per
blocking wait) and reporting the handler invocations made, whether the loop is
still running, and any error recorded for the owner.
-/

namespace GpiodIsr

/-- A GPIO line handle (a struct gpiod_line pointer), modelled as an id. -/
abbrev Line := Nat

/-- A handler function pointer, modelled as an id; pointer comparison in the C
code becomes id comparison. -/
abbrev Handler := Nat

/-- Request-type constant GPIOD_LINE_REQUEST_EVENT_FALLING_EDGE from gpiod.h
(enum value 4 in libgpiod v1). -/
def GPIOD_LINE_REQUEST_EVENT_FALLING_EDGE : Int := 4

/-- Request-type constant GPIOD_LINE_REQUEST_EVENT_RISING_EDGE from gpiod.h
(enum value 5 in libgpiod v1). -/
def GPIOD_LINE_REQUEST_EVENT_RISING_EDGE : Int := 5

/-- Request-type constant GPIOD_LINE_REQUEST_EVENT_BOTH_EDGES from gpiod.h
(enum value 6 in libgpiod v1). -/
def GPIOD_LINE_REQUEST_EVENT_BOTH_EDGES : Int := 6

/-- The errno value EINVAL. -/
def EINVAL : Int := 22

/-- An event type is one of the three event-request constants accepted by the
switch in _gpiod_request_event / _gpiod_request_bulk_event. -/
def validEventType (t : Int) : Prop :=
  t = GPIOD_LINE_REQUEST_EVENT_FALLING_EDGE ∨
  t = GPIOD_LINE_REQUEST_EVENT_RISING_EDGE ∨
  t = GPIOD_LINE_REQUEST_EVENT_BOTH_EDGES

instance (t : Int) : Decidable (validEventType t) := by
  unfold validEventType
  infer_instance

/-- Model of struct gpiod_line_event: the observed event type and the
timestamp (seconds and nanoseconds). -/
structure gpiod_line_event where
  event_type : Int
  tv_sec : Int
  tv_nsec : Int
  deriving DecidableEq, Repr

/-- Externally visible calls performed by the wrapper, recorded in program
order.  requestEvent records a call to one of the three
gpiod_line_request_*_edge_events functions together with the consumer label,
the kind requested and whether the underlying reservation succeeded;
requestBulkEvent is its bulk counterpart.  cancelThread, joinThread and
spawnThread record pthread_cancel, pthread_join and pthread_create on the
handle's watcher thread, freeIsr records free of the handle. -/
inductive Action where
  | requestEvent (line : Line) (consumer : String) (kind : Int) (ok : Bool)
  | requestBulkEvent (lines : List Line) (consumer : String) (kind : Int) (ok : Bool)
  | releaseLine (line : Line)
  | releaseBulk (lines : List Line)
  | cancelThread
  | joinThread
  | spawnThread
  | freeIsr
  deriving DecidableEq, Repr

/-- Reservation state of line l after executing a trace, given its state
before.  A successful requestEvent / requestBulkEvent covering l reserves it, a
releaseLine / releaseBulk covering l unreserves it (libgpiod reservation is
all-or-nothing for a bulk, so a failed bulk request reserves nothing). -/
def reservedAfter (l : Line) : Bool → List Action → Bool
  | b, [] => b
  | b, Action.requestEvent l' _ _ ok :: tr =>
      reservedAfter l (if l' = l ∧ ok = true then true else b) tr
  | b, Action.requestBulkEvent ls _ _ ok :: tr =>
      reservedAfter l (if l ∈ ls ∧ ok = true then true else b) tr
  | b, Action.releaseLine l' :: tr =>
      reservedAfter l (if l' = l then false else b) tr
  | b, Action.releaseBulk ls :: tr =>
      reservedAfter l (if l ∈ ls then false else b) tr
  | b, _ :: tr => reservedAfter l b tr

/-- Whether the handle's watcher thread is running after a trace, given its
state before: spawnThread starts it, joinThread means it has fully stopped. -/
def watcherRunningAfter : Bool → List Action → Bool
  | b, [] => b
  | _, Action.spawnThread :: tr => watcherRunningAfter true tr
  | _, Action.joinThread :: tr => watcherRunningAfter false tr
  | b, _ :: tr => watcherRunningAfter b tr

/-- Whether a trace contains a reservation call that succeeded. -/
def successfulReserveIn : List Action → Bool
  | [] => false
  | Action.requestEvent _ _ _ ok :: tr => ok || successfulReserveIn tr
  | Action.requestBulkEvent _ _ _ ok :: tr => ok || successfulReserveIn tr
  | _ :: tr => successfulReserveIn tr

/-- Model of struct gpiod_isr: the reserved line, the handler pointer and the
stored event type.  The pthread_t field carries no data in this model; the
thread's lifecycle is recorded by the cancelThread / joinThread / spawnThread
trace actions of the operations on the handle. -/
structure gpiod_isr where
  line : Line
  handler : Handler
  event_type : Int
  deriving DecidableEq, Repr

/-- Model of struct gpiod_isr_bulk: the reserved set of lines (the fixed array
inside struct gpiod_line_bulk), the handler pointer and the stored event
type. -/
structure gpiod_isr_bulk where
  lines : List Line
  handler : Handler
  event_type : Int
  deriving DecidableEq, Repr

/-- The C return convention for int-returning collaborator calls: 0 on
success, -1 on failure. -/
def cRet (ok : Bool) : Int := if ok then 0 else -1

/-- Result of the edge request translator: the int return value, the errno
value this code itself assigns (none when errno is left to the collaborator)
and the trace of collaborator calls. -/
structure TranslatorResult where
  ret : Int
  errno : Option Int
  trace : List Action
  deriving DecidableEq, Repr

/-- Model of _gpiod_request_event: switch on the event type, calling the
matching gpiod_line_request_*_edge_events function, with default case errno =
EINVAL and return -1 without touching the line.  reserveOk is the outcome of
the underlying reservation call. -/
def _gpiod_request_event (line : Line) (consumer : String) (event_type : Int)
    (reserveOk : Bool) : TranslatorResult :=
  if event_type = GPIOD_LINE_REQUEST_EVENT_FALLING_EDGE then
    ⟨cRet reserveOk, none, [Action.requestEvent line consumer GPIOD_LINE_REQUEST_EVENT_FALLING_EDGE reserveOk]⟩
  else if event_type = GPIOD_LINE_REQUEST_EVENT_RISING_EDGE then
    ⟨cRet reserveOk, none, [Action.requestEvent line consumer GPIOD_LINE_REQUEST_EVENT_RISING_EDGE reserveOk]⟩
  else if event_type = GPIOD_LINE_REQUEST_EVENT_BOTH_EDGES then
    ⟨cRet reserveOk, none, [Action.requestEvent line consumer GPIOD_LINE_REQUEST_EVENT_BOTH_EDGES reserveOk]⟩
  else
    ⟨-1, some EINVAL, []⟩

/-- Model of _gpiod_request_bulk_event: same switch over the bulk reservation
functions. -/
def _gpiod_request_bulk_event (lines : List Line) (consumer : String)
    (event_type : Int) (reserveOk : Bool) : TranslatorResult :=
  if event_type = GPIOD_LINE_REQUEST_EVENT_FALLING_EDGE then
    ⟨cRet reserveOk, none, [Action.requestBulkEvent lines consumer GPIOD_LINE_REQUEST_EVENT_FALLING_EDGE reserveOk]⟩
  else if event_type = GPIOD_LINE_REQUEST_EVENT_RISING_EDGE then
    ⟨cRet reserveOk, none, [Action.requestBulkEvent lines consumer GPIOD_LINE_REQUEST_EVENT_RISING_EDGE reserveOk]⟩
  else if event_type = GPIOD_LINE_REQUEST_EVENT_BOTH_EDGES then
    ⟨cRet reserveOk, none, [Action.requestBulkEvent lines consumer GPIOD_LINE_REQUEST_EVENT_BOTH_EDGES reserveOk]⟩
  else
    ⟨-1, some EINVAL, []⟩

/-- Result of a request operation: the returned handle (none for NULL), the
errno value this code itself assigns, and the trace. -/
structure RequestResult where
  isr : Option gpiod_isr
  errno : Option Int
  trace : List Action
  deriving DecidableEq, Repr

/-- Result of a bulk request operation. -/
structure BulkRequestResult where
  isr : Option gpiod_isr_bulk
  errno : Option Int
  trace : List Action
  deriving DecidableEq, Repr

/-- Model of gpiod_isr_request_events: NULL line or handler gives EINVAL;
then the translator runs; on translator failure return NULL; on malloc failure
release the line and return NULL; on pthread_create failure free the handle,
release the line and return NULL; otherwise the handle stores the line, the
handler and the event type.  reserveOk, mallocOk, spawnOk are the collaborator
outcomes. -/
def gpiod_isr_request_events (line? : Option Line) (consumer : String)
    (event_type : Int) (handler? : Option Handler)
    (reserveOk mallocOk spawnOk : Bool) : RequestResult :=
  match line?, handler? with
  | none, _ => ⟨none, some EINVAL, []⟩
  | _, none => ⟨none, some EINVAL, []⟩
  | some l, some h =>
    let r := _gpiod_request_event l consumer event_type reserveOk
    if r.ret < 0 then ⟨none, r.errno, r.trace⟩
    else if mallocOk = false then ⟨none, none, r.trace ++ [Action.releaseLine l]⟩
    else if spawnOk = false then
      ⟨none, none, r.trace ++ [Action.freeIsr, Action.releaseLine l]⟩
    else ⟨some ⟨l, h, event_type⟩, none, r.trace ++ [Action.spawnThread]⟩

/-- Model of gpiod_isr_request_bulk_events, mirroring the single-line request
over a set of lines. -/
def gpiod_isr_request_bulk_events (bulk? : Option (List Line)) (consumer : String)
    (event_type : Int) (handler? : Option Handler)
    (reserveOk mallocOk spawnOk : Bool) : BulkRequestResult :=
  match bulk?, handler? with
  | none, _ => ⟨none, some EINVAL, []⟩
  | _, none => ⟨none, some EINVAL, []⟩
  | some ls, some h =>
    let r := _gpiod_request_bulk_event ls consumer event_type reserveOk
    if r.ret < 0 then ⟨none, r.errno, r.trace⟩
    else if mallocOk = false then ⟨none, none, r.trace ++ [Action.releaseBulk ls]⟩
    else if spawnOk = false then
      ⟨none, none, r.trace ++ [Action.freeIsr, Action.releaseBulk ls]⟩
    else ⟨some ⟨ls, h, event_type⟩, none, r.trace ++ [Action.spawnThread]⟩

/-- Result of a release operation: the int return value and the trace. -/
structure ReleaseResult where
  ret : Int
  trace : List Action
  deriving DecidableEq, Repr

/-- Model of gpiod_isr_release: NULL handle returns -1; otherwise
pthread_cancel (failure returns -1 having done nothing else), pthread_join,
gpiod_line_release, free, in that order.  cancelOk is the pthread_cancel
outcome. -/
def gpiod_isr_release (isr? : Option gpiod_isr) (cancelOk : Bool) : ReleaseResult :=
  match isr? with
  | none => ⟨-1, []⟩
  | some isr =>
    if cancelOk = false then ⟨-1, []⟩
    else ⟨0, [Action.cancelThread, Action.joinThread,
              Action.releaseLine isr.line, Action.freeIsr]⟩

/-- Model of gpiod_isr_release_bulk, mirroring gpiod_isr_release with
gpiod_line_release_bulk. -/
def gpiod_isr_release_bulk (isr? : Option gpiod_isr_bulk) (cancelOk : Bool) : ReleaseResult :=
  match isr? with
  | none => ⟨-1, []⟩
  | some isr =>
    if cancelOk = false then ⟨-1, []⟩
    else ⟨0, [Action.cancelThread, Action.joinThread,
              Action.releaseBulk isr.lines, Action.freeIsr]⟩

/-- The fast-path guard of gpiod_isr_change_event, exactly as written in the
source: (!handler && (event_type == -1 || isr->event_type == event_type)) ||
(handler == isr->handler && isr->event_type == event_type). -/
abbrev fastCond (isr : gpiod_isr) (event_type : Int) (handler? : Option Handler) : Prop :=
  (handler? = none ∧ (event_type = -1 ∨ isr.event_type = event_type)) ∨
  (handler? = some isr.handler ∧ isr.event_type = event_type)

/-- The fast-path guard of gpiod_isr_change_bulk_event (textually identical to
the single-line guard). -/
abbrev fastCondBulk (isr : gpiod_isr_bulk) (event_type : Int) (handler? : Option Handler) : Prop :=
  (handler? = none ∧ (event_type = -1 ∨ isr.event_type = event_type)) ∨
  (handler? = some isr.handler ∧ isr.event_type = event_type)

/-- The handler-update step shared by both change functions: if the handler
argument is non-NULL and differs from the stored one, store it. -/
def changeHandler (isr : gpiod_isr) (handler? : Option Handler) : gpiod_isr :=
  match handler? with
  | some h => if isr.handler ≠ h then { isr with handler := h } else isr
  | none => isr

/-- The handler-update step of the bulk change function. -/
def changeHandlerBulk (isr : gpiod_isr_bulk) (handler? : Option Handler) : gpiod_isr_bulk :=
  match handler? with
  | some h => if isr.handler ≠ h then { isr with handler := h } else isr
  | none => isr

/-- The consumer label the bulk reconfigure passes to the translator:
gpiod_line_name of the first line of the set (the C indexes
isr->lines->lines[0]; headD coincides with that for the nonempty sets the C is
defined on). -/
def bulkFirstLineName (lineName : Line → String) (ls : List Line) : String :=
  lineName (ls.headD 0)

/-- Result of a change (reconfigure) operation: the int return value, the
errno value this code itself assigns, the handle's stored fields after the
call, and the trace. -/
structure ChangeResult where
  ret : Int
  errno : Option Int
  isr : Option gpiod_isr
  trace : List Action
  deriving DecidableEq, Repr

/-- Result of a bulk change operation. -/
structure BulkChangeResult where
  ret : Int
  errno : Option Int
  isr : Option gpiod_isr_bulk
  trace : List Action
  deriving DecidableEq, Repr

/-- Model of gpiod_isr_change_event.  NULL handle gives EINVAL; the fast-path
guard returns 0 at once; then pthread_cancel (failure returns -1) and
pthread_join; if the event type argument is not -1 and differs from the stored
one, gpiod_line_release then _gpiod_request_event under the consumer label
gpiod_line_name(line) (the lineName collaborator), returning -1 on its
failure, otherwise storing the new event type; then the handler update; then
pthread_create, releasing the line and returning -1 on spawn failure. -/
def gpiod_isr_change_event : Option gpiod_isr → Int → Option Handler →
    (Line → String) → Bool → Bool → Bool → ChangeResult
  | none, _, _, _, _, _, _ => ⟨-1, some EINVAL, none, []⟩
  | some isr, event_type, handler?, lineName, cancelOk, reserveOk, spawnOk =>
    if fastCond isr event_type handler? then ⟨0, none, some isr, []⟩
    else if cancelOk = false then ⟨-1, none, some isr, []⟩
    else if event_type ≠ -1 ∧ isr.event_type ≠ event_type then
      let r := _gpiod_request_event isr.line (lineName isr.line) event_type reserveOk
      if r.ret < 0 then
        ⟨-1, r.errno, some isr,
         [Action.cancelThread, Action.joinThread, Action.releaseLine isr.line] ++ r.trace⟩
      else
        let isr2 := changeHandler { isr with event_type := event_type } handler?
        if spawnOk then
          ⟨0, none, some isr2,
           [Action.cancelThread, Action.joinThread, Action.releaseLine isr.line] ++
             r.trace ++ [Action.spawnThread]⟩
        else
          ⟨-1, none, some isr2,
           [Action.cancelThread, Action.joinThread, Action.releaseLine isr.line] ++
             r.trace ++ [Action.releaseLine isr.line]⟩
    else
      let isr2 := changeHandler isr handler?
      if spawnOk then
        ⟨0, none, some isr2, [Action.cancelThread, Action.joinThread, Action.spawnThread]⟩
      else
        ⟨-1, none, some isr2, [Action.cancelThread, Action.joinThread, Action.releaseLine isr.line]⟩

/-- Model of gpiod_isr_change_bulk_event.  Identical control flow over a bulk
handle; the re-reservation consumer label is gpiod_line_name of the first line
of the set (the C indexes isr->lines->lines[0]; this model uses headD, which
coincides for the nonempty sets the C is defined on). -/
def gpiod_isr_change_bulk_event : Option gpiod_isr_bulk → Int → Option Handler →
    (Line → String) → Bool → Bool → Bool → BulkChangeResult
  | none, _, _, _, _, _, _ => ⟨-1, some EINVAL, none, []⟩
  | some isr, event_type, handler?, lineName, cancelOk, reserveOk, spawnOk =>
    if fastCondBulk isr event_type handler? then ⟨0, none, some isr, []⟩
    else if cancelOk = false then ⟨-1, none, some isr, []⟩
    else if event_type ≠ -1 ∧ isr.event_type ≠ event_type then
      let r := _gpiod_request_bulk_event isr.lines (bulkFirstLineName lineName isr.lines)
                 event_type reserveOk
      if r.ret < 0 then
        ⟨-1, r.errno, some isr,
         [Action.cancelThread, Action.joinThread, Action.releaseBulk isr.lines] ++ r.trace⟩
      else
        let isr2 := changeHandlerBulk { isr with event_type := event_type } handler?
        if spawnOk then
          ⟨0, none, some isr2,
           [Action.cancelThread, Action.joinThread, Action.releaseBulk isr.lines] ++
             r.trace ++ [Action.spawnThread]⟩
        else
          ⟨-1, none, some isr2,
           [Action.cancelThread, Action.joinThread, Action.releaseBulk isr.lines] ++
             r.trace ++ [Action.releaseBulk isr.lines]⟩
    else
      let isr2 := changeHandlerBulk isr handler?
      if spawnOk then
        ⟨0, none, some isr2, [Action.cancelThread, Action.joinThread, Action.spawnThread]⟩
      else
        ⟨-1, none, some isr2, [Action.cancelThread, Action.joinThread, Action.releaseBulk isr.lines]⟩

/-- Status of a watcher loop after consuming a finite prefix of collaborator
outcomes: still inside the for loop, or exited. -/
inductive LoopStatus where
  | running
  | stopped
  deriving DecidableEq, Repr

/-- Observable outcome of running a single-line watcher body over a finite
prefix of collaborator outcomes: the handler invocations made (in order), the
loop status afterwards, and the error recorded for the owning handle. -/
structure WatcherRun where
  invocations : List gpiod_line_event
  status : LoopStatus
  recordedError : Option Int
  deriving DecidableEq, Repr

/-- Model of the body of _gpiod_event_watcher.  Each outcome entry is one
gpiod_line_event_wait return value paired with the gpiod_line_event_read
result used when the wait returned 1 (none models a failing read).  A wait
result other than 1 (error or timeout) is retried immediately by the inner
while loop with its outcome discarded; a failing read skips the handler call;
a successful read invokes the handler.  The for loop has no exit path, so the
status is running after every finite prefix, and the struct gpiod_isr offers
no field in which an error could be recorded, so recordedError stays none. -/
def _gpiod_event_watcher_run : List (Int × Option gpiod_line_event) → WatcherRun
  | [] => ⟨[], LoopStatus.running, none⟩
  | (w, r) :: rest =>
    if w ≠ 1 then _gpiod_event_watcher_run rest
    else
      let tail := _gpiod_event_watcher_run rest
      match r with
      | some e => ⟨e :: tail.invocations, tail.status, tail.recordedError⟩
      | none => tail

/-- One collaborator outcome for the bulk watcher: the
gpiod_line_event_wait_bulk return value and, when it is 1, the ready lines
reported in event_bulk, in collaborator order. -/
structure BulkOutcome where
  waitRes : Int
  ready : List Line
  deriving DecidableEq, Repr

/-- Observable outcome of running the bulk watcher body over a finite prefix
of collaborator outcomes. -/
structure BulkWatcherRun where
  invocations : List (Line × gpiod_line_event)
  status : LoopStatus
  recordedError : Option Int
  deriving DecidableEq, Repr

/-- The per-wake inner for loop of _gpiod_event_watcher_bulk: for each ready
line in collaborator order, gpiod_line_event_read (outcome readResult); on
success the handler is invoked with that line and event, on failure the line
is skipped. -/
def bulkWakeInvocations (ready : List Line)
    (readResult : Line → Option gpiod_line_event) : List (Line × gpiod_line_event) :=
  ready.filterMap fun l => (readResult l).map fun e => (l, e)

/-- Model of the body of _gpiod_event_watcher_bulk, analogous to
_gpiod_event_watcher_run: wait results other than 1 are retried with the
outcome discarded; a wake processes every ready line through
bulkWakeInvocations; the loop has no exit path and records no error. -/
def _gpiod_event_watcher_bulk_run (readResult : Line → Option gpiod_line_event) :
    List BulkOutcome → BulkWatcherRun
  | [] => ⟨[], LoopStatus.running, none⟩
  | o :: rest =>
    if o.waitRes ≠ 1 then _gpiod_event_watcher_bulk_run readResult rest
    else
      let tail := _gpiod_event_watcher_bulk_run readResult rest
      ⟨bulkWakeInvocations o.ready readResult ++ tail.invocations,
       tail.status, tail.recordedError⟩

/-- The two pthread cancelability types. -/
inductive CancelType where
  | deferred
  | asynchronous
  deriving DecidableEq, Repr

/-- Phases of a watcher task relevant to cancellation. -/
inductive TaskPhase where
  | blockedInWait
  | betweenIterations
  | inHandler
  | stopped
  deriving DecidableEq, Repr

/-- Modelled from POSIX pthread semantics: whether a pending cancellation
request may take effect while the task is in the given phase.  Under the
deferred type it may fire only at cancellation points (the blocking wait);
under the asynchronous type it may fire at any time in any live phase,
including in the middle of a handler body. -/
def cancelMayFire : CancelType → TaskPhase → Bool
  | CancelType.deferred, TaskPhase.blockedInWait => true
  | CancelType.deferred, _ => false
  | CancelType.asynchronous, TaskPhase.stopped => false
  | CancelType.asynchronous, _ => true

/-- The cancelability type the single-line watcher installs on itself at
startup: _gpiod_event_watcher calls
pthread_setcanceltype(PTHREAD_CANCEL_ASYNCHRONOUS, NULL). -/
def watcherCancelType : CancelType := CancelType.asynchronous

/-- The cancelability type the bulk watcher installs on itself at startup:
_gpiod_event_watcher_bulk makes the same
pthread_setcanceltype(PTHREAD_CANCEL_ASYNCHRONOUS, NULL) call. -/
def watcherBulkCancelType : CancelType := CancelType.asynchronous

/-- Elementary observable events of a watcher run used by the cancellation
model: the start and the end of one handler invocation, and the task
stopping. -/
inductive TEvent where
  | handlerStart
  | handlerEnd
  | taskStop
  deriving DecidableEq, Repr

/-- The start/end event pairs of a list of handler invocations. -/
def handlerEvents : List gpiod_line_event → List TEvent
  | [] => []
  | _ :: rest => TEvent.handlerStart :: TEvent.handlerEnd :: handlerEvents rest

/-- The elementary event trace of an uncancelled single-line watcher run. -/
def watcherTrace (outs : List (Int × Option gpiod_line_event)) : List TEvent :=
  handlerEvents (_gpiod_event_watcher_run outs).invocations

/-- Modelled from POSIX pthread semantics together with the watcher's
pthread_setcanceltype(PTHREAD_CANCEL_ASYNCHRONOUS, NULL) call: an asynchronous
cancellation delivered after k elementary events of the run stops the task
right there, whatever the current phase is — in particular between a
handlerStart and its handlerEnd. -/
def runWithAsyncCancel (outs : List (Int × Option gpiod_line_event)) (k : Nat) :
    List TEvent :=
  (watcherTrace outs).take k ++ [TEvent.taskStop]

/-! Helper lemmas shared by the claim theorems. -/

/-- Valid event types make the translator call the matching reservation
function. -/
lemma request_event_valid (l : Line) (c : String) (et : Int) (ok : Bool)
    (h : validEventType et) :
    _gpiod_request_event l c et ok = ⟨cRet ok, none, [Action.requestEvent l c et ok]⟩ := by
  rcases h with h | h | h <;> subst h <;> rfl

/-- Invalid event types hit the default case of the translator switch. -/
lemma request_event_invalid (l : Line) (c : String) (et : Int) (ok : Bool)
    (h : ¬ validEventType et) :
    _gpiod_request_event l c et ok = ⟨-1, some EINVAL, []⟩ := by
  simp only [validEventType, not_or] at h
  obtain ⟨h1, h2, h3⟩ := h
  simp [_gpiod_request_event, h1, h2, h3]

/-- Bulk version of request_event_valid. -/
lemma request_bulk_event_valid (ls : List Line) (c : String) (et : Int) (ok : Bool)
    (h : validEventType et) :
    _gpiod_request_bulk_event ls c et ok = ⟨cRet ok, none, [Action.requestBulkEvent ls c et ok]⟩ := by
  rcases h with h | h | h <;> subst h <;> rfl

/-- Bulk version of request_event_invalid. -/
lemma request_bulk_event_invalid (ls : List Line) (c : String) (et : Int) (ok : Bool)
    (h : ¬ validEventType et) :
    _gpiod_request_bulk_event ls c et ok = ⟨-1, some EINVAL, []⟩ := by
  simp only [validEventType, not_or] at h
  obtain ⟨h1, h2, h3⟩ := h
  simp [_gpiod_request_bulk_event, h1, h2, h3]

/-- A single-line watcher run never leaves the loop and never records an
error, whatever the collaborator outcomes are. -/
lemma watcher_run_invariant (outs : List (Int × Option gpiod_line_event)) :
    (_gpiod_event_watcher_run outs).status = LoopStatus.running ∧
    (_gpiod_event_watcher_run outs).recordedError = none := by
  induction outs with
  | nil => exact ⟨rfl, rfl⟩
  | cons o rest ih =>
    obtain ⟨w, r⟩ := o
    by_cases hw : w ≠ 1
    · simpa [_gpiod_event_watcher_run, hw] using ih
    · cases r <;> simp [_gpiod_event_watcher_run, hw] <;> exact ih

/-- A bulk watcher run never leaves the loop and never records an error. -/
lemma bulk_watcher_run_invariant (readResult : Line → Option gpiod_line_event)
    (outs : List BulkOutcome) :
    (_gpiod_event_watcher_bulk_run readResult outs).status = LoopStatus.running ∧
    (_gpiod_event_watcher_bulk_run readResult outs).recordedError = none := by
  induction outs with
  | nil => exact ⟨rfl, rfl⟩
  | cons o rest ih =>
    by_cases hw : o.waitRes ≠ 1
    · simpa [_gpiod_event_watcher_bulk_run, hw] using ih
    · simp [_gpiod_event_watcher_bulk_run, hw]
      exact ih

/-- A kind-changing call (argument not -1 and different from the stored kind)
never satisfies the fast-path guard. -/
lemma not_fastCond_of_kind_change (isr : gpiod_isr) (et : Int) (h? : Option Handler)
    (h1 : et ≠ -1) (h2 : isr.event_type ≠ et) : ¬ fastCond isr et h? := by
  rintro (⟨-, h | h⟩ | ⟨-, h⟩)
  · exact h1 h
  · exact h2 h
  · exact h2 h

/-- Bulk version of not_fastCond_of_kind_change. -/
lemma not_fastCondBulk_of_kind_change (isr : gpiod_isr_bulk) (et : Int)
    (h? : Option Handler) (h1 : et ≠ -1) (h2 : isr.event_type ≠ et) :
    ¬ fastCondBulk isr et h? := by
  rintro (⟨-, h | h⟩ | ⟨-, h⟩)
  · exact h1 h
  · exact h2 h
  · exact h2 h

/-- The handler update never touches the stored event type. -/
lemma changeHandler_event_type (isr : gpiod_isr) (h? : Option Handler) :
    (changeHandler isr h?).event_type = isr.event_type := by
  cases h? with
  | none => rfl
  | some h => simp only [changeHandler]; split <;> rfl

/-- The handler update never touches the stored line. -/
lemma changeHandler_line (isr : gpiod_isr) (h? : Option Handler) :
    (changeHandler isr h?).line = isr.line := by
  cases h? with
  | none => rfl
  | some h => simp only [changeHandler]; split <;> rfl

/-- Bulk version of changeHandler_event_type. -/
lemma changeHandlerBulk_event_type (isr : gpiod_isr_bulk) (h? : Option Handler) :
    (changeHandlerBulk isr h?).event_type = isr.event_type := by
  cases h? with
  | none => rfl
  | some h => simp only [changeHandlerBulk]; split <;> rfl

/-- Branch of gpiod_isr_change_event: invalid new kind.  The watcher is
cancelled and joined and the line released before the translator rejects the
kind with EINVAL; the stored fields are unchanged. -/
lemma change_event_invalid_kind (isr : gpiod_isr) (et : Int) (h? : Option Handler)
    (nm : Line → String) (rOk sOk : Bool)
    (h1 : et ≠ -1) (h2 : isr.event_type ≠ et) (hv : ¬ validEventType et) :
    gpiod_isr_change_event (some isr) et h? nm true rOk sOk =
      ⟨-1, some EINVAL, some isr,
       [Action.cancelThread, Action.joinThread, Action.releaseLine isr.line]⟩ := by
  have hfast := not_fastCond_of_kind_change isr et h? h1 h2
  simp [gpiod_isr_change_event, hfast, h1, h2,
    request_event_invalid isr.line (nm isr.line) et rOk hv]

/-- Branch of gpiod_isr_change_event: valid new kind but the re-reservation
fails.  The line stays unreserved and the stored fields are unchanged. -/
lemma change_event_reserve_fail (isr : gpiod_isr) (et : Int) (h? : Option Handler)
    (nm : Line → String) (sOk : Bool)
    (h1 : et ≠ -1) (h2 : isr.event_type ≠ et) (hv : validEventType et) :
    gpiod_isr_change_event (some isr) et h? nm true false sOk =
      ⟨-1, none, some isr,
       [Action.cancelThread, Action.joinThread, Action.releaseLine isr.line,
        Action.requestEvent isr.line (nm isr.line) et false]⟩ := by
  have hfast := not_fastCond_of_kind_change isr et h? h1 h2
  simp [gpiod_isr_change_event, hfast, h1, h2,
    request_event_valid isr.line (nm isr.line) et false hv, cRet]

/-- Branch of gpiod_isr_change_event: valid new kind, successful
re-reservation.  The stored kind becomes the new kind, the handler is updated,
and the watcher is respawned (or, on spawn failure, the line is released). -/
lemma change_event_reserve_ok (isr : gpiod_isr) (et : Int) (h? : Option Handler)
    (nm : Line → String) (sOk : Bool)
    (h1 : et ≠ -1) (h2 : isr.event_type ≠ et) (hv : validEventType et) :
    gpiod_isr_change_event (some isr) et h? nm true true sOk =
      (if sOk then
        ⟨0, none, some (changeHandler { isr with event_type := et } h?),
         [Action.cancelThread, Action.joinThread, Action.releaseLine isr.line,
          Action.requestEvent isr.line (nm isr.line) et true, Action.spawnThread]⟩
      else
        ⟨-1, none, some (changeHandler { isr with event_type := et } h?),
         [Action.cancelThread, Action.joinThread, Action.releaseLine isr.line,
          Action.requestEvent isr.line (nm isr.line) et true,
          Action.releaseLine isr.line]⟩) := by
  have hfast := not_fastCond_of_kind_change isr et h? h1 h2
  cases sOk <;>
    simp [gpiod_isr_change_event, hfast, h1, h2,
      request_event_valid isr.line (nm isr.line) et true hv, cRet]

/-- Branch of gpiod_isr_change_event: no kind change (fast path not taken).
The watcher is cancelled, the handler possibly updated, and the watcher
respawned (or, on spawn failure, the line released). -/
lemma change_event_no_kind_change (isr : gpiod_isr) (et : Int) (h? : Option Handler)
    (nm : Line → String) (rOk sOk : Bool)
    (hfast : ¬ fastCond isr et h?) (hnk : ¬ (et ≠ -1 ∧ isr.event_type ≠ et)) :
    gpiod_isr_change_event (some isr) et h? nm true rOk sOk =
      (if sOk then
        ⟨0, none, some (changeHandler isr h?),
         [Action.cancelThread, Action.joinThread, Action.spawnThread]⟩
      else
        ⟨-1, none, some (changeHandler isr h?),
         [Action.cancelThread, Action.joinThread, Action.releaseLine isr.line]⟩) := by
  cases sOk <;> simp [gpiod_isr_change_event, hfast, hnk]

/-- Branch of gpiod_isr_change_event: pthread_cancel fails; nothing else is
done. -/
lemma change_event_cancel_fail (isr : gpiod_isr) (et : Int) (h? : Option Handler)
    (nm : Line → String) (rOk sOk : Bool) (hfast : ¬ fastCond isr et h?) :
    gpiod_isr_change_event (some isr) et h? nm false rOk sOk =
      ⟨-1, none, some isr, []⟩ := by
  simp [gpiod_isr_change_event, hfast]

/-- Branch of gpiod_isr_change_event: the fast-path guard holds, nothing is
done. -/
lemma change_event_fast (isr : gpiod_isr) (et : Int) (h? : Option Handler)
    (nm : Line → String) (cOk rOk sOk : Bool) (hfast : fastCond isr et h?) :
    gpiod_isr_change_event (some isr) et h? nm cOk rOk sOk =
      ⟨0, none, some isr, []⟩ := by
  simp [gpiod_isr_change_event, hfast]

/-- Bulk branch lemma: the fast-path guard holds, nothing is done. -/
lemma change_bulk_fast (isr : gpiod_isr_bulk) (et : Int) (h? : Option Handler)
    (nm : Line → String) (cOk rOk sOk : Bool) (hfast : fastCondBulk isr et h?) :
    gpiod_isr_change_bulk_event (some isr) et h? nm cOk rOk sOk =
      ⟨0, none, some isr, []⟩ := by
  simp [gpiod_isr_change_bulk_event, hfast]

/-- Bulk branch lemma: invalid new kind. -/
lemma change_bulk_invalid_kind (isr : gpiod_isr_bulk) (et : Int) (h? : Option Handler)
    (nm : Line → String) (rOk sOk : Bool)
    (h1 : et ≠ -1) (h2 : isr.event_type ≠ et) (hv : ¬ validEventType et) :
    gpiod_isr_change_bulk_event (some isr) et h? nm true rOk sOk =
      ⟨-1, some EINVAL, some isr,
       [Action.cancelThread, Action.joinThread, Action.releaseBulk isr.lines]⟩ := by
  have hfast := not_fastCondBulk_of_kind_change isr et h? h1 h2
  simp [gpiod_isr_change_bulk_event, hfast, h1, h2,
    request_bulk_event_invalid isr.lines (bulkFirstLineName nm isr.lines) et rOk hv]

/-- Bulk branch lemma: valid new kind but the re-reservation fails. -/
lemma change_bulk_reserve_fail (isr : gpiod_isr_bulk) (et : Int) (h? : Option Handler)
    (nm : Line → String) (sOk : Bool)
    (h1 : et ≠ -1) (h2 : isr.event_type ≠ et) (hv : validEventType et) :
    gpiod_isr_change_bulk_event (some isr) et h? nm true false sOk =
      ⟨-1, none, some isr,
       [Action.cancelThread, Action.joinThread, Action.releaseBulk isr.lines,
        Action.requestBulkEvent isr.lines (bulkFirstLineName nm isr.lines) et false]⟩ := by
  have hfast := not_fastCondBulk_of_kind_change isr et h? h1 h2
  simp [gpiod_isr_change_bulk_event, hfast, h1, h2,
    request_bulk_event_valid isr.lines (bulkFirstLineName nm isr.lines) et false hv, cRet]

/-- Bulk branch lemma: valid new kind, successful re-reservation. -/
lemma change_bulk_reserve_ok (isr : gpiod_isr_bulk) (et : Int) (h? : Option Handler)
    (nm : Line → String) (sOk : Bool)
    (h1 : et ≠ -1) (h2 : isr.event_type ≠ et) (hv : validEventType et) :
    gpiod_isr_change_bulk_event (some isr) et h? nm true true sOk =
      (if sOk then
        ⟨0, none, some (changeHandlerBulk { isr with event_type := et } h?),
         [Action.cancelThread, Action.joinThread, Action.releaseBulk isr.lines,
          Action.requestBulkEvent isr.lines (bulkFirstLineName nm isr.lines) et true,
          Action.spawnThread]⟩
      else
        ⟨-1, none, some (changeHandlerBulk { isr with event_type := et } h?),
         [Action.cancelThread, Action.joinThread, Action.releaseBulk isr.lines,
          Action.requestBulkEvent isr.lines (bulkFirstLineName nm isr.lines) et true,
          Action.releaseBulk isr.lines]⟩) := by
  have hfast := not_fastCondBulk_of_kind_change isr et h? h1 h2
  cases sOk <;>
    simp [gpiod_isr_change_bulk_event, hfast, h1, h2,
      request_bulk_event_valid isr.lines (bulkFirstLineName nm isr.lines) et true hv, cRet]

/-- Bulk branch lemma: no kind change (fast path not taken). -/
lemma change_bulk_no_kind_change (isr : gpiod_isr_bulk) (et : Int) (h? : Option Handler)
    (nm : Line → String) (rOk sOk : Bool)
    (hfast : ¬ fastCondBulk isr et h?) (hnk : ¬ (et ≠ -1 ∧ isr.event_type ≠ et)) :
    gpiod_isr_change_bulk_event (some isr) et h? nm true rOk sOk =
      (if sOk then
        ⟨0, none, some (changeHandlerBulk isr h?),
         [Action.cancelThread, Action.joinThread, Action.spawnThread]⟩
      else
        ⟨-1, none, some (changeHandlerBulk isr h?),
         [Action.cancelThread, Action.joinThread, Action.releaseBulk isr.lines]⟩) := by
  cases sOk <;> simp [gpiod_isr_change_bulk_event, hfast, hnk]

/-- Bulk branch lemma: pthread_cancel fails. -/
lemma change_bulk_cancel_fail (isr : gpiod_isr_bulk) (et : Int) (h? : Option Handler)
    (nm : Line → String) (rOk sOk : Bool) (hfast : ¬ fastCondBulk isr et h?) :
    gpiod_isr_change_bulk_event (some isr) et h? nm false rOk sOk =
      ⟨-1, none, some isr, []⟩ := by
  simp [gpiod_isr_change_bulk_event, hfast]

/-! Claim theorems. -/

/-- Claim C1 (code_bug evidence): the single-line watcher loop never
terminates and never records an error for the owner, whatever errors the
blocking wait or the event read report; in particular, after five consecutive
wait errors (wait returning -1) the loop is still running, has invoked no
handler and has recorded nothing — it busy-retried the failing wait instead of
transitioning to Stopped with the error observable, as the claim requires. -/
theorem watcher_loop_discards_errors_and_never_stops :
    (∀ outs : List (Int × Option gpiod_line_event),
       (_gpiod_event_watcher_run outs).status = LoopStatus.running ∧
       (_gpiod_event_watcher_run outs).recordedError = none) ∧
    _gpiod_event_watcher_run
        (List.replicate 5 ((-1 : Int), (none : Option gpiod_line_event))) =
      ⟨[], LoopStatus.running, none⟩ := by
  refine ⟨watcher_run_invariant, ?_⟩
  decide

/-- Claim C2 counterexample: the watcher installs the asynchronous
cancelability type, under which a pending cancellation may fire while the task
is in the middle of a handler body; concretely, cancelling after one
elementary event of a run that has just entered the handler yields the trace
handlerStart, taskStop with no handlerEnd — a started handler body that does
not run to completion, contradicting the claim. -/
theorem async_cancel_interrupts_handler_cex :
    watcherCancelType = CancelType.asynchronous ∧
    cancelMayFire watcherCancelType TaskPhase.inHandler = true ∧
    runWithAsyncCancel [((1 : Int), some ⟨5, 0, 0⟩)] 1 =
      [TEvent.handlerStart, TEvent.taskStop] ∧
    TEvent.handlerEnd ∉ runWithAsyncCancel [((1 : Int), some ⟨5, 0, 0⟩)] 1 := by
  decide

/-- Claim C2 (amended): because both watcher bodies install
PTHREAD_CANCEL_ASYNCHRONOUS on themselves, a pending cancellation may take
effect in every live phase of the task — while blocked in the edge wait,
between iterations, and also while a handler invocation is executing — so a
handler body that has started is not guaranteed to run to completion before
the task stops. -/
theorem async_cancel_any_live_phase (ph : TaskPhase) (h : ph ≠ TaskPhase.stopped) :
    cancelMayFire watcherCancelType ph = true ∧
    cancelMayFire watcherBulkCancelType ph = true := by
  cases ph
  · exact ⟨rfl, rfl⟩
  · exact ⟨rfl, rfl⟩
  · exact ⟨rfl, rfl⟩
  · exact absurd rfl h

/-- Witness for async_cancel_any_live_phase at the in-handler phase. -/
theorem async_cancel_any_live_phase_witness :
    TaskPhase.inHandler ≠ TaskPhase.stopped ∧
    cancelMayFire watcherCancelType TaskPhase.inHandler = true ∧
    cancelMayFire watcherBulkCancelType TaskPhase.inHandler = true :=
  ⟨by decide, (async_cancel_any_live_phase TaskPhase.inHandler (by decide)).1,
    (async_cancel_any_live_phase TaskPhase.inHandler (by decide)).2⟩

/-- Claim C7: releasing a valid handle cancels the watcher thread, joins it,
and only then releases the line reservation (and frees the handle), in exactly
that order; afterwards the watcher thread is not running and the line is
unreserved; releasing a NULL handle returns -1, for both the single-line and
the bulk release. -/
theorem release_cancels_joins_then_unreserves :
    (∀ isr : gpiod_isr,
       gpiod_isr_release (some isr) true =
         ⟨0, [Action.cancelThread, Action.joinThread,
              Action.releaseLine isr.line, Action.freeIsr]⟩ ∧
       watcherRunningAfter true (gpiod_isr_release (some isr) true).trace = false ∧
       reservedAfter isr.line true (gpiod_isr_release (some isr) true).trace = false) ∧
    (∀ cancelOk, (gpiod_isr_release none cancelOk).ret = -1) ∧
    (∀ isr : gpiod_isr_bulk,
       gpiod_isr_release_bulk (some isr) true =
         ⟨0, [Action.cancelThread, Action.joinThread,
              Action.releaseBulk isr.lines, Action.freeIsr]⟩ ∧
       watcherRunningAfter true (gpiod_isr_release_bulk (some isr) true).trace = false) ∧
    (∀ cancelOk, (gpiod_isr_release_bulk none cancelOk).ret = -1) := by
  refine ⟨fun isr => ⟨rfl, ?_, ?_⟩, fun _ => rfl, fun isr => ⟨rfl, ?_⟩, fun _ => rfl⟩
  · simp [gpiod_isr_release, watcherRunningAfter]
  · simp [gpiod_isr_release, reservedAfter]
  · simp [gpiod_isr_release_bulk, watcherRunningAfter]

/-- Claim C8: in one wake of the bulk watcher, the handler is invoked once per
ready line whose event read succeeds, in the collaborator's order (the
projection of the invocations onto lines is exactly the ready list filtered to
the readable lines); every invocation carries the event read for its line; the
wake's deliveries are prepended to whatever later iterations deliver; and the
loop keeps running after the wake, so a failing read skips only its own line
without terminating the loop. -/
theorem bulk_wake_delivers_each_ready_line :
    (∀ (ready : List Line) (readResult : Line → Option gpiod_line_event),
       (bulkWakeInvocations ready readResult).map Prod.fst =
         ready.filter (fun l => (readResult l).isSome)) ∧
    (∀ (ready : List Line) (readResult : Line → Option gpiod_line_event)
       (l : Line) (e : gpiod_line_event),
       (l, e) ∈ bulkWakeInvocations ready readResult → readResult l = some e) ∧
    (∀ (ready : List Line) (readResult : Line → Option gpiod_line_event)
       (rest : List BulkOutcome),
       (_gpiod_event_watcher_bulk_run readResult (⟨1, ready⟩ :: rest)).invocations =
         bulkWakeInvocations ready readResult ++
           (_gpiod_event_watcher_bulk_run readResult rest).invocations) ∧
    (∀ (ready : List Line) (readResult : Line → Option gpiod_line_event)
       (rest : List BulkOutcome),
       (_gpiod_event_watcher_bulk_run readResult (⟨1, ready⟩ :: rest)).status =
         LoopStatus.running) := by
  refine ⟨?_, ?_, ?_, ?_⟩
  · intro ready readResult
    induction ready with
    | nil => rfl
    | cons l ls ih =>
      cases hr : readResult l <;>
        simp [bulkWakeInvocations, List.filterMap_cons, hr] <;>
        simpa [bulkWakeInvocations] using ih
  · intro ready readResult l e hmem
    simp only [bulkWakeInvocations, List.mem_filterMap, Option.map_eq_some'] at hmem
    obtain ⟨a, _, e', ha, hpair⟩ := hmem
    obtain ⟨rfl, rfl⟩ := Prod.mk.injEq .. ▸ hpair
    exact ha
  · intro ready readResult rest
    simp [_gpiod_event_watcher_bulk_run]
  · intro ready readResult rest
    simp [_gpiod_event_watcher_bulk_run,
      (bulk_watcher_run_invariant readResult rest).1]

/-- Witness for bulk_wake_delivers_each_ready_line: a concrete wake over lines
0, 1, 2 whose read fails on line 1, applied to the membership conjunct. -/
theorem bulk_wake_delivers_each_ready_line_witness :
    ((0, (⟨4, 0, 0⟩ : gpiod_line_event)) ∈
      bulkWakeInvocations [0, 1, 2]
        (fun l => if l = 1 then none else some ⟨4, 0, 0⟩)) ∧
    (fun l => if l = 1 then none else some (⟨4, 0, 0⟩ : gpiod_line_event)) 0 =
      some ⟨4, 0, 0⟩ :=
  ⟨by decide,
    bulk_wake_delivers_each_ready_line.2.1 [0, 1, 2]
      (fun l => if l = 1 then none else some ⟨4, 0, 0⟩) 0 ⟨4, 0, 0⟩ (by decide)⟩

/-- Claim C3 counterexample: a reconfigure whose handler argument equals the
current handler and whose edge-kind argument is the keep-the-same sentinel -1
changes nothing, yet the call does not take the fast path: it returns success
but cancels, joins and respawns the running watcher task, contradicting
"returns success immediately without cancelling or restarting". -/
theorem change_event_noop_sentinel_restarts_cex :
    (gpiod_isr_change_event (some ⟨0, 1, 4⟩) (-1) (some 1)
        (fun _ => "gpio0") true true true).ret = 0 ∧
    (gpiod_isr_change_event (some ⟨0, 1, 4⟩) (-1) (some 1)
        (fun _ => "gpio0") true true true).isr = some ⟨0, 1, 4⟩ ∧
    Action.cancelThread ∈
      (gpiod_isr_change_event (some ⟨0, 1, 4⟩) (-1) (some 1)
        (fun _ => "gpio0") true true true).trace ∧
    Action.spawnThread ∈
      (gpiod_isr_change_event (some ⟨0, 1, 4⟩) (-1) (some 1)
        (fun _ => "gpio0") true true true).trace := by
  decide

/-- Claim C3 (amended): the no-op fast path applies exactly when the C guard
holds — the handler argument is NULL and the kind argument is -1 or equals the
stored kind, or the handler argument equals the stored handler and the kind
argument equals the stored kind — and then the call returns success
immediately with no action taken; in the remaining no-change case (handler
argument equal to the stored handler, kind argument -1) the call still returns
success with the stored configuration unchanged, but cancels, joins and
respawns the watcher task.  The same holds for the bulk reconfigure. -/
theorem change_event_fast_path_exact :
    (∀ (isr : gpiod_isr) (et : Int) (h? : Option Handler) (nm : Line → String)
       (cOk rOk sOk : Bool), fastCond isr et h? →
       gpiod_isr_change_event (some isr) et h? nm cOk rOk sOk =
         ⟨0, none, some isr, []⟩) ∧
    (∀ (isr : gpiod_isr) (nm : Line → String) (rOk : Bool),
       validEventType isr.event_type →
       gpiod_isr_change_event (some isr) (-1) (some isr.handler) nm true rOk true =
         ⟨0, none, some isr,
          [Action.cancelThread, Action.joinThread, Action.spawnThread]⟩) ∧
    (∀ (isr : gpiod_isr_bulk) (et : Int) (h? : Option Handler) (nm : Line → String)
       (cOk rOk sOk : Bool), fastCondBulk isr et h? →
       gpiod_isr_change_bulk_event (some isr) et h? nm cOk rOk sOk =
         ⟨0, none, some isr, []⟩) ∧
    (∀ (isr : gpiod_isr_bulk) (nm : Line → String) (rOk : Bool),
       validEventType isr.event_type →
       gpiod_isr_change_bulk_event (some isr) (-1) (some isr.handler) nm true rOk true =
         ⟨0, none, some isr,
          [Action.cancelThread, Action.joinThread, Action.spawnThread]⟩) := by
  refine ⟨?_, ?_, ?_, ?_⟩
  · intro isr et h? nm cOk rOk sOk hfast
    simp [gpiod_isr_change_event, hfast]
  · intro isr nm rOk hv
    have hne : isr.event_type ≠ -1 := by
      rcases hv with h | h | h <;> rw [h] <;> decide
    have hfast : ¬ fastCond isr (-1) (some isr.handler) := by
      rintro (⟨h, -⟩ | ⟨-, h⟩)
      · exact Option.noConfusion h
      · exact hne h
    have hnk : ¬ ((-1 : Int) ≠ -1 ∧ isr.event_type ≠ -1) := by
      rintro ⟨h, -⟩
      exact h rfl
    rw [change_event_no_kind_change isr (-1) (some isr.handler) nm rOk true hfast hnk]
    simp [changeHandler]
  · intro isr et h? nm cOk rOk sOk hfast
    simp [gpiod_isr_change_bulk_event, hfast]
  · intro isr nm rOk hv
    have hne : isr.event_type ≠ -1 := by
      rcases hv with h | h | h <;> rw [h] <;> decide
    have hfast : ¬ fastCondBulk isr (-1) (some isr.handler) := by
      rintro (⟨h, -⟩ | ⟨-, h⟩)
      · exact Option.noConfusion h
      · exact hne h
    have hnk : ¬ ((-1 : Int) ≠ -1 ∧ isr.event_type ≠ -1) := by
      rintro ⟨h, -⟩
      exact h rfl
    rw [change_bulk_no_kind_change isr (-1) (some isr.handler) nm rOk true hfast hnk]
    simp [changeHandlerBulk]

/-- Witness for change_event_fast_path_exact: the fast-path guard holds for a
NULL handler with the kind argument equal to the stored kind, and the call
then does nothing. -/
theorem change_event_fast_path_exact_witness :
    fastCond ⟨0, 1, 4⟩ 4 none ∧
    gpiod_isr_change_event (some ⟨0, 1, 4⟩) 4 none (fun _ => "gpio0") true true true =
      ⟨0, none, some ⟨0, 1, 4⟩, []⟩ :=
  ⟨by decide,
    change_event_fast_path_exact.1 ⟨0, 1, 4⟩ 4 none (fun _ => "gpio0") true true true
      (by decide)⟩

/-- Claim C4: if a reconfigure changes the edge kind and the re-reservation
under the new kind fails (invalid kind or reservation denied), the call
returns -1 with the stored configuration unchanged, the line (every line, in
the bulk case) unreserved, the watcher thread no longer running, and no new
watcher is spawned — the operation never resumes watching under a half-updated
configuration. -/
theorem change_event_reservation_failure_leaves_released :
    (∀ (isr : gpiod_isr) (et : Int) (h? : Option Handler) (nm : Line → String)
       (rOk sOk : Bool),
       et ≠ -1 → isr.event_type ≠ et →
       (¬ validEventType et ∨ rOk = false) →
       (gpiod_isr_change_event (some isr) et h? nm true rOk sOk).ret = -1 ∧
       (gpiod_isr_change_event (some isr) et h? nm true rOk sOk).isr = some isr ∧
       reservedAfter isr.line true
         (gpiod_isr_change_event (some isr) et h? nm true rOk sOk).trace = false ∧
       watcherRunningAfter true
         (gpiod_isr_change_event (some isr) et h? nm true rOk sOk).trace = false ∧
       Action.spawnThread ∉
         (gpiod_isr_change_event (some isr) et h? nm true rOk sOk).trace) ∧
    (∀ (isr : gpiod_isr_bulk) (et : Int) (h? : Option Handler) (nm : Line → String)
       (rOk sOk : Bool) (l : Line),
       et ≠ -1 → isr.event_type ≠ et →
       (¬ validEventType et ∨ rOk = false) →
       (gpiod_isr_change_bulk_event (some isr) et h? nm true rOk sOk).ret = -1 ∧
       (gpiod_isr_change_bulk_event (some isr) et h? nm true rOk sOk).isr = some isr ∧
       (l ∈ isr.lines →
         reservedAfter l true
           (gpiod_isr_change_bulk_event (some isr) et h? nm true rOk sOk).trace = false) ∧
       watcherRunningAfter true
         (gpiod_isr_change_bulk_event (some isr) et h? nm true rOk sOk).trace = false ∧
       Action.spawnThread ∉
         (gpiod_isr_change_bulk_event (some isr) et h? nm true rOk sOk).trace) := by
  constructor
  · intro isr et h? nm rOk sOk h1 h2 hfail
    by_cases hv : validEventType et
    · have hr : rOk = false := by
        rcases hfail with h | h
        · exact absurd hv h
        · exact h
      subst hr
      rw [change_event_reserve_fail isr et h? nm sOk h1 h2 hv]
      refine ⟨rfl, rfl, ?_, ?_, ?_⟩ <;> simp [reservedAfter, watcherRunningAfter]
    · rw [change_event_invalid_kind isr et h? nm rOk sOk h1 h2 hv]
      refine ⟨rfl, rfl, ?_, ?_, ?_⟩ <;> simp [reservedAfter, watcherRunningAfter]
  · intro isr et h? nm rOk sOk l h1 h2 hfail
    by_cases hv : validEventType et
    · have hr : rOk = false := by
        rcases hfail with h | h
        · exact absurd hv h
        · exact h
      subst hr
      rw [change_bulk_reserve_fail isr et h? nm sOk h1 h2 hv]
      refine ⟨rfl, rfl, fun hl => ?_, ?_, ?_⟩
      · simp [reservedAfter, hl]
      · simp [watcherRunningAfter]
      · simp
    · rw [change_bulk_invalid_kind isr et h? nm rOk sOk h1 h2 hv]
      refine ⟨rfl, rfl, fun hl => ?_, ?_, ?_⟩
      · simp [reservedAfter, hl]
      · simp [watcherRunningAfter]
      · simp

/-- Witness for change_event_reservation_failure_leaves_released: a reconfigure
from falling to rising edge whose re-reservation is denied. -/
theorem change_event_reservation_failure_witness :
    ((5 : Int) ≠ -1) ∧ ((4 : Int) ≠ 5) ∧
    ((gpiod_isr_change_event (some ⟨0, 1, 4⟩) 5 none (fun _ => "gpio0") true false true).ret = -1 ∧
     (gpiod_isr_change_event (some ⟨0, 1, 4⟩) 5 none (fun _ => "gpio0") true false true).isr = some ⟨0, 1, 4⟩ ∧
     reservedAfter 0 true
       (gpiod_isr_change_event (some ⟨0, 1, 4⟩) 5 none (fun _ => "gpio0") true false true).trace = false ∧
     watcherRunningAfter true
       (gpiod_isr_change_event (some ⟨0, 1, 4⟩) 5 none (fun _ => "gpio0") true false true).trace = false ∧
     Action.spawnThread ∉
       (gpiod_isr_change_event (some ⟨0, 1, 4⟩) 5 none (fun _ => "gpio0") true false true).trace) :=
  ⟨by decide, by decide,
    change_event_reservation_failure_leaves_released.1 ⟨0, 1, 4⟩ 5 none
      (fun _ => "gpio0") false true (by decide) (by decide) (Or.inr rfl)⟩

/-- Claim C5 counterexample: a reconfigure with the non-event request kind
GPIOD_LINE_REQUEST_DIRECTION_INPUT (value 2) does fail with errno EINVAL, but
the line is not left untouched: the watcher is cancelled and the line
reservation released before the invalid kind is detected. -/
theorem change_event_invalid_kind_touches_line_cex :
    gpiod_isr_change_event (some ⟨0, 1, 4⟩) 2 none (fun _ => "gpio0") true true true =
      ⟨-1, some EINVAL, some ⟨0, 1, 4⟩,
       [Action.cancelThread, Action.joinThread, Action.releaseLine 0]⟩ ∧
    Action.releaseLine 0 ∈
      (gpiod_isr_change_event (some ⟨0, 1, 4⟩) 2 none (fun _ => "gpio0") true true true).trace ∧
    reservedAfter 0 true
      (gpiod_isr_change_event (some ⟨0, 1, 4⟩) 2 none (fun _ => "gpio0") true true true).trace = false := by
  decide

/-- Claim C5 (amended): a request call — single or bulk — with an edge kind
outside the three variants fails with errno EINVAL and performs no hardware
action against the line (empty trace).  A reconfigure call with such a kind
(necessarily different from -1 and from the stored kind) also fails with errno
EINVAL and attempts no reservation, but it does not leave the line untouched:
it first cancels and joins the watcher and releases the line reservation, and
only then the translator rejects the kind. -/
theorem invalid_event_kind_einval :
    (∀ (l : Line) (c : String) (et : Int) (ok : Bool), ¬ validEventType et →
       _gpiod_request_event l c et ok = ⟨-1, some EINVAL, []⟩) ∧
    (∀ (l : Line) (c : String) (et : Int) (h : Handler) (rOk mOk sOk : Bool),
       ¬ validEventType et →
       gpiod_isr_request_events (some l) c et (some h) rOk mOk sOk =
         ⟨none, some EINVAL, []⟩) ∧
    (∀ (ls : List Line) (c : String) (et : Int) (h : Handler) (rOk mOk sOk : Bool),
       ¬ validEventType et →
       gpiod_isr_request_bulk_events (some ls) c et (some h) rOk mOk sOk =
         ⟨none, some EINVAL, []⟩) ∧
    (∀ (isr : gpiod_isr) (et : Int) (h? : Option Handler) (nm : Line → String)
       (rOk sOk : Bool), ¬ validEventType et → et ≠ -1 → isr.event_type ≠ et →
       gpiod_isr_change_event (some isr) et h? nm true rOk sOk =
         ⟨-1, some EINVAL, some isr,
          [Action.cancelThread, Action.joinThread, Action.releaseLine isr.line]⟩) ∧
    (∀ (isr : gpiod_isr_bulk) (et : Int) (h? : Option Handler) (nm : Line → String)
       (rOk sOk : Bool), ¬ validEventType et → et ≠ -1 → isr.event_type ≠ et →
       gpiod_isr_change_bulk_event (some isr) et h? nm true rOk sOk =
         ⟨-1, some EINVAL, some isr,
          [Action.cancelThread, Action.joinThread, Action.releaseBulk isr.lines]⟩) := by
  refine ⟨request_event_invalid, ?_, ?_,
    fun isr et h? nm rOk sOk hv h1 h2 => change_event_invalid_kind isr et h? nm rOk sOk h1 h2 hv,
    fun isr et h? nm rOk sOk hv h1 h2 => change_bulk_invalid_kind isr et h? nm rOk sOk h1 h2 hv⟩
  · intro l c et h rOk mOk sOk hv
    simp [gpiod_isr_request_events, request_event_invalid l c et rOk hv]
  · intro ls c et h rOk mOk sOk hv
    simp [gpiod_isr_request_bulk_events, request_bulk_event_invalid ls c et rOk hv]

/-- Claim C6: whenever a request — single or bulk — fails (returns a NULL
handle), no line is left reserved: every line is unreserved after the call's
trace, starting from the unreserved state; in particular, when the reservation
succeeded but malloc or the thread spawn failed, the reservation has been
released again before the error return. -/
theorem request_failure_leaves_no_reservation :
    (∀ (line? : Option Line) (c : String) (et : Int) (h? : Option Handler)
       (rOk mOk sOk : Bool) (l : Line),
       (gpiod_isr_request_events line? c et h? rOk mOk sOk).isr = none →
       reservedAfter l false
         (gpiod_isr_request_events line? c et h? rOk mOk sOk).trace = false) ∧
    (∀ (bulk? : Option (List Line)) (c : String) (et : Int) (h? : Option Handler)
       (rOk mOk sOk : Bool) (l : Line),
       (gpiod_isr_request_bulk_events bulk? c et h? rOk mOk sOk).isr = none →
       reservedAfter l false
         (gpiod_isr_request_bulk_events bulk? c et h? rOk mOk sOk).trace = false) := by
  constructor
  · intro line? c et h? rOk mOk sOk l hnone
    cases line? with
    | none => simp [gpiod_isr_request_events, reservedAfter]
    | some l' =>
      cases h? with
      | none => simp [gpiod_isr_request_events, reservedAfter]
      | some h =>
        by_cases hv : validEventType et
        · cases rOk with
          | false =>
            simp [gpiod_isr_request_events, request_event_valid l' c et false hv,
              cRet, reservedAfter]
          | true =>
            cases mOk with
            | false =>
              rcases eq_or_ne l' l with hl | hl
              · subst hl
                simp [gpiod_isr_request_events, request_event_valid l' c et true hv,
                  cRet, reservedAfter]
              · simp [gpiod_isr_request_events, request_event_valid l' c et true hv,
                  cRet, reservedAfter, hl]
            | true =>
              cases sOk with
              | false =>
                rcases eq_or_ne l' l with hl | hl
                · subst hl
                  simp [gpiod_isr_request_events, request_event_valid l' c et true hv,
                    cRet, reservedAfter]
                · simp [gpiod_isr_request_events, request_event_valid l' c et true hv,
                    cRet, reservedAfter, hl]
              | true =>
                simp [gpiod_isr_request_events,
                  request_event_valid l' c et true hv, cRet] at hnone
        · simp [gpiod_isr_request_events, request_event_invalid l' c et rOk hv,
            reservedAfter]
  · intro bulk? c et h? rOk mOk sOk l hnone
    cases bulk? with
    | none => simp [gpiod_isr_request_bulk_events, reservedAfter]
    | some ls =>
      cases h? with
      | none => simp [gpiod_isr_request_bulk_events, reservedAfter]
      | some h =>
        by_cases hv : validEventType et
        · cases rOk with
          | false =>
            simp [gpiod_isr_request_bulk_events, request_bulk_event_valid ls c et false hv,
              cRet, reservedAfter]
          | true =>
            cases mOk with
            | false =>
              by_cases hl : l ∈ ls <;>
                simp [gpiod_isr_request_bulk_events, request_bulk_event_valid ls c et true hv,
                  cRet, reservedAfter, hl]
            | true =>
              cases sOk with
              | false =>
                by_cases hl : l ∈ ls <;>
                  simp [gpiod_isr_request_bulk_events, request_bulk_event_valid ls c et true hv,
                    cRet, reservedAfter, hl]
              | true =>
                simp [gpiod_isr_request_bulk_events,
                  request_bulk_event_valid ls c et true hv, cRet] at hnone
        · simp [gpiod_isr_request_bulk_events, request_bulk_event_invalid ls c et rOk hv,
            reservedAfter]

/-- Witness for request_failure_leaves_no_reservation: a request whose
reservation succeeds but whose watcher spawn fails leaves line 0
unreserved. -/
theorem request_failure_leaves_no_reservation_witness :
    (gpiod_isr_request_events (some 0) "consumer" 4 (some 1) true true false).isr = none ∧
    reservedAfter 0 false
      (gpiod_isr_request_events (some 0) "consumer" 4 (some 1) true true false).trace = false :=
  ⟨by decide,
    request_failure_leaves_no_reservation.1 (some 0) "consumer" 4 (some 1)
      true true false 0 (by decide)⟩

/-- Witness for invalid_event_kind_einval: the direction-input request kind
(value 2) rejected by the single-line request path with no action taken. -/
theorem invalid_event_kind_einval_witness :
    (¬ validEventType 2) ∧
    gpiod_isr_request_events (some 0) "consumer" 2 (some 1) true true true =
      ⟨none, some EINVAL, []⟩ :=
  ⟨by decide,
    invalid_event_kind_einval.2.1 0 "consumer" 2 1 true true true (by decide)⟩

/-- Claim C9: whenever a reconfigure — single or bulk — changes the edge kind
to a valid kind, the re-reservation call it makes uses as consumer label the
string returned by gpiod_line_name for the line (for the first line of the
set, in the bulk case); moreover every reservation call in the reconfigure's
trace uses that label, so the consumer label supplied by the caller at the
original request (which the handle structure does not even store) is not
preserved across reconfiguration. -/
theorem reconfigure_consumer_is_line_name :
    (∀ (isr : gpiod_isr) (et : Int) (h? : Option Handler) (nm : Line → String)
       (rOk sOk : Bool),
       validEventType et → isr.event_type ≠ et →
       Action.requestEvent isr.line (nm isr.line) et rOk ∈
         (gpiod_isr_change_event (some isr) et h? nm true rOk sOk).trace ∧
       (∀ (l : Line) (c : String) (k : Int) (ok : Bool),
          Action.requestEvent l c k ok ∈
            (gpiod_isr_change_event (some isr) et h? nm true rOk sOk).trace →
          c = nm isr.line)) ∧
    (∀ (isr : gpiod_isr_bulk) (et : Int) (h? : Option Handler) (nm : Line → String)
       (rOk sOk : Bool),
       validEventType et → isr.event_type ≠ et →
       Action.requestBulkEvent isr.lines (bulkFirstLineName nm isr.lines) et rOk ∈
         (gpiod_isr_change_bulk_event (some isr) et h? nm true rOk sOk).trace ∧
       (∀ (ls : List Line) (c : String) (k : Int) (ok : Bool),
          Action.requestBulkEvent ls c k ok ∈
            (gpiod_isr_change_bulk_event (some isr) et h? nm true rOk sOk).trace →
          c = bulkFirstLineName nm isr.lines)) := by
  constructor
  · intro isr et h? nm rOk sOk hv h2
    have h1 : et ≠ -1 := by rcases hv with h | h | h <;> rw [h] <;> decide
    cases rOk with
    | false =>
      rw [change_event_reserve_fail isr et h? nm sOk h1 h2 hv]
      refine ⟨by simp, ?_⟩
      intro l c k ok hmem
      simp at hmem
      exact hmem.2.1
    | true =>
      cases sOk with
      | false =>
        rw [change_event_reserve_ok isr et h? nm false h1 h2 hv]
        simp only [Bool.false_eq_true, if_false]
        refine ⟨by simp, ?_⟩
        intro l c k ok hmem
        simp at hmem
        exact hmem.2.1
      | true =>
        rw [change_event_reserve_ok isr et h? nm true h1 h2 hv]
        simp only [if_true]
        refine ⟨by simp, ?_⟩
        intro l c k ok hmem
        simp at hmem
        exact hmem.2.1
  · intro isr et h? nm rOk sOk hv h2
    have h1 : et ≠ -1 := by rcases hv with h | h | h <;> rw [h] <;> decide
    cases rOk with
    | false =>
      rw [change_bulk_reserve_fail isr et h? nm sOk h1 h2 hv]
      refine ⟨by simp, ?_⟩
      intro ls c k ok hmem
      simp at hmem
      exact hmem.2.1
    | true =>
      cases sOk with
      | false =>
        rw [change_bulk_reserve_ok isr et h? nm false h1 h2 hv]
        simp only [Bool.false_eq_true, if_false]
        refine ⟨by simp, ?_⟩
        intro ls c k ok hmem
        simp at hmem
        exact hmem.2.1
      | true =>
        rw [change_bulk_reserve_ok isr et h? nm true h1 h2 hv]
        simp only [if_true]
        refine ⟨by simp, ?_⟩
        intro ls c k ok hmem
        simp at hmem
        exact hmem.2.1

/-- Witness for reconfigure_consumer_is_line_name: a falling-to-rising
reconfigure on line 0 whose re-reservation is made under the label the
gpiod_line_name collaborator returns for line 0. -/
theorem reconfigure_consumer_is_line_name_witness :
    validEventType 5 ∧ ((⟨0, 1, 4⟩ : gpiod_isr).event_type ≠ (5 : Int)) ∧
    Action.requestEvent 0 "chip-name-of-0" 5 true ∈
      (gpiod_isr_change_event (some ⟨0, 1, 4⟩) 5 none (fun _ => "chip-name-of-0")
        true true true).trace :=
  ⟨by decide, by decide,
    (reconfigure_consumer_is_line_name.1 ⟨0, 1, 4⟩ 5 none (fun _ => "chip-name-of-0")
      true true (by decide) (by decide)).1⟩

/-- Claim C10: every handle a request returns stores as event_type exactly the
requested kind, which is one of the three valid request constants; a
reconfigure keeps the stored event_type valid (starting from a valid one); and
a reconfigure whose trace contains no successful reservation leaves the stored
event_type unchanged — the update happens only after the re-reservation under
the new kind has succeeded.  Both the single-line and the bulk handle satisfy
this. -/
theorem stored_event_type_invariant :
    (∀ (line? : Option Line) (c : String) (et : Int) (h? : Option Handler)
       (rOk mOk sOk : Bool) (i : gpiod_isr),
       (gpiod_isr_request_events line? c et h? rOk mOk sOk).isr = some i →
       i.event_type = et ∧ validEventType i.event_type) ∧
    (∀ (bulk? : Option (List Line)) (c : String) (et : Int) (h? : Option Handler)
       (rOk mOk sOk : Bool) (i : gpiod_isr_bulk),
       (gpiod_isr_request_bulk_events bulk? c et h? rOk mOk sOk).isr = some i →
       i.event_type = et ∧ validEventType i.event_type) ∧
    (∀ (isr : gpiod_isr) (et : Int) (h? : Option Handler) (nm : Line → String)
       (cOk rOk sOk : Bool) (i : gpiod_isr),
       validEventType isr.event_type →
       (gpiod_isr_change_event (some isr) et h? nm cOk rOk sOk).isr = some i →
       validEventType i.event_type) ∧
    (∀ (isr : gpiod_isr) (et : Int) (h? : Option Handler) (nm : Line → String)
       (cOk rOk sOk : Bool) (i : gpiod_isr),
       (gpiod_isr_change_event (some isr) et h? nm cOk rOk sOk).isr = some i →
       successfulReserveIn
         (gpiod_isr_change_event (some isr) et h? nm cOk rOk sOk).trace = false →
       i.event_type = isr.event_type) ∧
    (∀ (isr : gpiod_isr_bulk) (et : Int) (h? : Option Handler) (nm : Line → String)
       (cOk rOk sOk : Bool) (i : gpiod_isr_bulk),
       validEventType isr.event_type →
       (gpiod_isr_change_bulk_event (some isr) et h? nm cOk rOk sOk).isr = some i →
       validEventType i.event_type) ∧
    (∀ (isr : gpiod_isr_bulk) (et : Int) (h? : Option Handler) (nm : Line → String)
       (cOk rOk sOk : Bool) (i : gpiod_isr_bulk),
       (gpiod_isr_change_bulk_event (some isr) et h? nm cOk rOk sOk).isr = some i →
       successfulReserveIn
         (gpiod_isr_change_bulk_event (some isr) et h? nm cOk rOk sOk).trace = false →
       i.event_type = isr.event_type) := by
  refine ⟨?_, ?_, ?_, ?_, ?_, ?_⟩
  · intro line? c et h? rOk mOk sOk i hsome
    cases line? with
    | none => simp [gpiod_isr_request_events] at hsome
    | some l' =>
      cases h? with
      | none => simp [gpiod_isr_request_events] at hsome
      | some h =>
        by_cases hv : validEventType et
        · cases rOk with
          | false =>
            simp [gpiod_isr_request_events, request_event_valid l' c et false hv,
              cRet] at hsome
          | true =>
            cases mOk with
            | false =>
              simp [gpiod_isr_request_events, request_event_valid l' c et true hv,
                cRet] at hsome
            | true =>
              cases sOk with
              | false =>
                simp [gpiod_isr_request_events, request_event_valid l' c et true hv,
                  cRet] at hsome
              | true =>
                simp [gpiod_isr_request_events, request_event_valid l' c et true hv,
                  cRet] at hsome
                subst hsome
                exact ⟨rfl, hv⟩
        · simp [gpiod_isr_request_events, request_event_invalid l' c et rOk hv] at hsome
  · intro bulk? c et h? rOk mOk sOk i hsome
    cases bulk? with
    | none => simp [gpiod_isr_request_bulk_events] at hsome
    | some ls =>
      cases h? with
      | none => simp [gpiod_isr_request_bulk_events] at hsome
      | some h =>
        by_cases hv : validEventType et
        · cases rOk with
          | false =>
            simp [gpiod_isr_request_bulk_events, request_bulk_event_valid ls c et false hv,
              cRet] at hsome
          | true =>
            cases mOk with
            | false =>
              simp [gpiod_isr_request_bulk_events, request_bulk_event_valid ls c et true hv,
                cRet] at hsome
            | true =>
              cases sOk with
              | false =>
                simp [gpiod_isr_request_bulk_events, request_bulk_event_valid ls c et true hv,
                  cRet] at hsome
              | true =>
                simp [gpiod_isr_request_bulk_events, request_bulk_event_valid ls c et true hv,
                  cRet] at hsome
                subst hsome
                exact ⟨rfl, hv⟩
        · simp [gpiod_isr_request_bulk_events,
            request_bulk_event_invalid ls c et rOk hv] at hsome
  · intro isr et h? nm cOk rOk sOk i hv hsome
    by_cases hfast : fastCond isr et h?
    · rw [change_event_fast isr et h? nm cOk rOk sOk hfast] at hsome
      simp at hsome
      subst hsome
      exact hv
    · cases cOk with
      | false =>
        rw [change_event_cancel_fail isr et h? nm rOk sOk hfast] at hsome
        simp at hsome
        subst hsome
        exact hv
      | true =>
        by_cases hk : et ≠ -1 ∧ isr.event_type ≠ et
        · obtain ⟨h1, h2⟩ := hk
          by_cases hvet : validEventType et
          · cases rOk with
            | false =>
              rw [change_event_reserve_fail isr et h? nm sOk h1 h2 hvet] at hsome
              simp at hsome
              subst hsome
              exact hv
            | true =>
              rw [change_event_reserve_ok isr et h? nm sOk h1 h2 hvet] at hsome
              cases sOk <;> simp at hsome <;> subst hsome <;>
                simpa [changeHandler_event_type] using hvet
          · rw [change_event_invalid_kind isr et h? nm rOk sOk h1 h2 hvet] at hsome
            simp at hsome
            subst hsome
            exact hv
        · rw [change_event_no_kind_change isr et h? nm rOk sOk hfast hk] at hsome
          cases sOk <;> simp at hsome <;> subst hsome <;>
            simpa [changeHandler_event_type] using hv
  · intro isr et h? nm cOk rOk sOk i hsome hsr
    by_cases hfast : fastCond isr et h?
    · rw [change_event_fast isr et h? nm cOk rOk sOk hfast] at hsome
      simp at hsome
      subst hsome
      rfl
    · cases cOk with
      | false =>
        rw [change_event_cancel_fail isr et h? nm rOk sOk hfast] at hsome
        simp at hsome
        subst hsome
        rfl
      | true =>
        by_cases hk : et ≠ -1 ∧ isr.event_type ≠ et
        · obtain ⟨h1, h2⟩ := hk
          by_cases hvet : validEventType et
          · cases rOk with
            | false =>
              rw [change_event_reserve_fail isr et h? nm sOk h1 h2 hvet] at hsome
              simp at hsome
              subst hsome
              rfl
            | true =>
              rw [change_event_reserve_ok isr et h? nm sOk h1 h2 hvet] at hsr
              cases sOk <;> simp [successfulReserveIn] at hsr
          · rw [change_event_invalid_kind isr et h? nm rOk sOk h1 h2 hvet] at hsome
            simp at hsome
            subst hsome
            rfl
        · rw [change_event_no_kind_change isr et h? nm rOk sOk hfast hk] at hsome
          cases sOk <;> simp at hsome <;> subst hsome <;>
            exact changeHandler_event_type isr h?
  · intro isr et h? nm cOk rOk sOk i hv hsome
    by_cases hfast : fastCondBulk isr et h?
    · rw [change_bulk_fast isr et h? nm cOk rOk sOk hfast] at hsome
      simp at hsome
      subst hsome
      exact hv
    · cases cOk with
      | false =>
        rw [change_bulk_cancel_fail isr et h? nm rOk sOk hfast] at hsome
        simp at hsome
        subst hsome
        exact hv
      | true =>
        by_cases hk : et ≠ -1 ∧ isr.event_type ≠ et
        · obtain ⟨h1, h2⟩ := hk
          by_cases hvet : validEventType et
          · cases rOk with
            | false =>
              rw [change_bulk_reserve_fail isr et h? nm sOk h1 h2 hvet] at hsome
              simp at hsome
              subst hsome
              exact hv
            | true =>
              rw [change_bulk_reserve_ok isr et h? nm sOk h1 h2 hvet] at hsome
              cases sOk <;> simp at hsome <;> subst hsome <;>
                simpa [changeHandlerBulk_event_type] using hvet
          · rw [change_bulk_invalid_kind isr et h? nm rOk sOk h1 h2 hvet] at hsome
            simp at hsome
            subst hsome
            exact hv
        · rw [change_bulk_no_kind_change isr et h? nm rOk sOk hfast hk] at hsome
          cases sOk <;> simp at hsome <;> subst hsome <;>
            simpa [changeHandlerBulk_event_type] using hv
  · intro isr et h? nm cOk rOk sOk i hsome hsr
    by_cases hfast : fastCondBulk isr et h?
    · rw [change_bulk_fast isr et h? nm cOk rOk sOk hfast] at hsome
      simp at hsome
      subst hsome
      rfl
    · cases cOk with
      | false =>
        rw [change_bulk_cancel_fail isr et h? nm rOk sOk hfast] at hsome
        simp at hsome
        subst hsome
        rfl
      | true =>
        by_cases hk : et ≠ -1 ∧ isr.event_type ≠ et
        · obtain ⟨h1, h2⟩ := hk
          by_cases hvet : validEventType et
          · cases rOk with
            | false =>
              rw [change_bulk_reserve_fail isr et h? nm sOk h1 h2 hvet] at hsome
              simp at hsome
              subst hsome
              rfl
            | true =>
              rw [change_bulk_reserve_ok isr et h? nm sOk h1 h2 hvet] at hsr
              cases sOk <;> simp [successfulReserveIn] at hsr
          · rw [change_bulk_invalid_kind isr et h? nm rOk sOk h1 h2 hvet] at hsome
            simp at hsome
            subst hsome
            rfl
        · rw [change_bulk_no_kind_change isr et h? nm rOk sOk hfast hk] at hsome
          cases sOk <;> simp at hsome <;> subst hsome <;>
            exact changeHandlerBulk_event_type isr h?

/-- Witness for stored_event_type_invariant: a successful falling-edge request
returns a handle storing event type 4, one of the three valid constants. -/
theorem stored_event_type_invariant_witness :
    (gpiod_isr_request_events (some 0) "consumer" 4 (some 1) true true true).isr =
      some ⟨0, 1, 4⟩ ∧
    (⟨0, 1, 4⟩ : gpiod_isr).event_type = 4 ∧
    validEventType (⟨0, 1, 4⟩ : gpiod_isr).event_type :=
  ⟨by decide,
    (stored_event_type_invariant.1 (some 0) "consumer" 4 (some 1) true true true
      ⟨0, 1, 4⟩ (by decide)).1,
    (stored_event_type_invariant.1 (some 0) "consumer" 4 (some 1) true true true
      ⟨0, 1, 4⟩ (by decide)).2⟩

end GpiodIsr
